import Mathlib

/-!
Shallow embedding of `src/demark_engine.py` (class `DeMarkEngine`).

The engine receives a pandas dataframe of OHLCV bars; prices and volumes
are modelled as rationals and the DATETIME column as an integer key.
All per-bar computations of the engine (`compute_setups`,
`compute_countdown`, `compute_signal_aging`, `run`) index the dataframe
by integer position, so the dataframe is modelled as a `List Bar` and
each derived column as a function of the bar index.
-/

/-- One row of the input dataframe: DATETIME, OPEN, HIGH, LOW, CLOSE, VOLUME. -/
structure Bar where
  datetime : ℤ
  open_ : ℚ
  high : ℚ
  low : ℚ
  close : ℚ
  volume : ℚ
deriving DecidableEq

instance : Inhabited Bar := ⟨⟨0, 0, 0, 0, 0, 0⟩⟩

/-- Value of the CLOSE column at row `i` (`df["CLOSE"].iloc[i]`). -/
def closeAt (s : List Bar) (i : ℕ) : ℚ := (s.getD i default).close

/-- Value of the HIGH column at row `i` (`df["HIGH"].iloc[i]`). -/
def highAt (s : List Bar) (i : ℕ) : ℚ := (s.getD i default).high

/-- Value of the LOW column at row `i` (`df["LOW"].iloc[i]`). -/
def lowAt (s : List Bar) (i : ℕ) : ℚ := (s.getD i default).low

/-- The BULL_SETUP column of `compute_setups`: initialised to 0, and for
each `i` in `range(4, len(df))`, set to the previous row's value plus one
when `CLOSE[i] < CLOSE[i-4]`, else reset to 0. -/
def bull_setup (s : List Bar) : ℕ → ℕ
  | 0 => 0
  | 1 => 0
  | 2 => 0
  | 3 => 0
  | (i + 4) =>
    if closeAt s (i + 4) < closeAt s i then bull_setup s (i + 3) + 1 else 0

/-- The BEAR_SETUP column of `compute_setups`: initialised to 0, and for
each `i` in `range(4, len(df))`, set to the previous row's value plus one
when `CLOSE[i] > CLOSE[i-4]`, else reset to 0. -/
def bear_setup (s : List Bar) : ℕ → ℕ
  | 0 => 0
  | 1 => 0
  | 2 => 0
  | 3 => 0
  | (i + 4) =>
    if closeAt s (i + 4) > closeAt s i then bear_setup s (i + 3) + 1 else 0

/-- PERFECT_BUY: `(BULL_SETUP == 9) & ((HIGH.shift(8) > HIGH.shift(6)) |
(HIGH.shift(8) > HIGH.shift(7)))`.  A shifted value at a row before the
shift window exists is NaN, and a NaN comparison is false, so the flag
requires `8 ≤ i`. -/
def perfect_buy (s : List Bar) (i : ℕ) : Bool :=
  (bull_setup s i == 9) && decide (8 ≤ i) &&
    (decide (highAt s (i - 8) > highAt s (i - 6)) ||
     decide (highAt s (i - 8) > highAt s (i - 7)))

/-- PERFECT_SELL: `(BEAR_SETUP == 9) & ((LOW.shift(8) < LOW.shift(6)) |
(LOW.shift(8) < LOW.shift(7)))`, with NaN comparisons false before row 8. -/
def perfect_sell (s : List Bar) (i : ℕ) : Bool :=
  (bear_setup s i == 9) && decide (8 ≤ i) &&
    (decide (lowAt s (i - 8) < lowAt s (i - 6)) ||
     decide (lowAt s (i - 8) < lowAt s (i - 7)))

/-- TD9_BUY: `BULL_SETUP == 9`. -/
def td9_buy (s : List Bar) (i : ℕ) : Bool := bull_setup s i == 9

/-- TD9_SELL: `BEAR_SETUP == 9`. -/
def td9_sell (s : List Bar) (i : ℕ) : Bool := bear_setup s i == 9

/-- One iteration of the `compute_countdown` loop body at row `i`, acting
on the running pair `(bull_cd, bear_cd)`: first each counter is reset to 0
when its own direction's setup column at `i` is ≥ 9, then `bull_cd` is
incremented when `CLOSE[i] <= LOW[i-2]` and `bear_cd` when
`CLOSE[i] >= HIGH[i-2]`.  There is no upper cap in the loop. -/
def countdown_step (s : List Bar) (i : ℕ) (st : ℕ × ℕ) : ℕ × ℕ :=
  let b0 := if 9 ≤ bull_setup s i then 0 else st.1
  let r0 := if 9 ≤ bear_setup s i then 0 else st.2
  let b1 := if closeAt s i ≤ lowAt s (i - 2) then b0 + 1 else b0
  let r1 := if closeAt s i ≥ highAt s (i - 2) then r0 + 1 else r0
  (b1, r1)

/-- Running state `(bull_cd, bear_cd)` of `compute_countdown` after the
loop iteration at row `i`; the loop starts at `i = 2` with both counters
at 0, matching the 0-initialised BULL_CD / BEAR_CD columns at rows 0, 1. -/
def countdown_state (s : List Bar) : ℕ → ℕ × ℕ
  | 0 => (0, 0)
  | 1 => (0, 0)
  | (i + 2) => countdown_step s (i + 2) (countdown_state s (i + 1))

/-- The BULL_CD column written by `compute_countdown` at row `i`. -/
def bull_cd (s : List Bar) (i : ℕ) : ℕ := (countdown_state s i).1

/-- The BEAR_CD column written by `compute_countdown` at row `i`. -/
def bear_cd (s : List Bar) (i : ℕ) : ℕ := (countdown_state s i).2

/-- TD13_BUY: `BULL_CD >= 13`. -/
def td13_buy (s : List Bar) (i : ℕ) : Bool := decide (13 ≤ bull_cd s i)

/-- TD13_SELL: `BEAR_CD >= 13`. -/
def td13_sell (s : List Bar) (i : ℕ) : Bool := decide (13 ≤ bear_cd s i)

/-- Class constant `TD9_WINDOW = 4`. -/
def TD9_WINDOW : ℕ := 4

/-- Class constant `TD13_WINDOW = 8`. -/
def TD13_WINDOW : ℕ := 8

/-- Index of the most recent row `j ≤ i` at which the event flag `f` is
set, if any: the combination of `np.where(flag, index, nan)` followed by
`ffill()` in `compute_signal_aging` carries the last event index forward
and leaves NaN (here `none`) before the first event. -/
def last_event_bar (f : ℕ → Bool) : ℕ → Option ℕ
  | 0 => if f 0 then some 0 else none
  | (i + 1) => if f (i + 1) then some (i + 1) else last_event_bar f i

/-- Age column `index - ffilled event bar`: NaN (`none`) before the first
event, otherwise the number of rows since the latest event. -/
def event_age (f : ℕ → Bool) (i : ℕ) : Option ℕ :=
  (last_event_bar f i).map (fun j => i - j)

/-- Status classification
`np.where(age == 0, "Fresh", np.where(age <= window, "Active", "Expired"))`.
When the age is NaN both numpy comparisons `NaN == 0` and `NaN <= window`
evaluate to false, so an undefined age falls through to "Expired". -/
def age_status (window : ℕ) (age : Option ℕ) : String :=
  match age with
  | none => "Expired"
  | some 0 => "Fresh"
  | some (a + 1) => if a + 1 ≤ window then "Active" else "Expired"

/-- TD9_BUY_AGE column. -/
def td9_buy_age (s : List Bar) (i : ℕ) : Option ℕ := event_age (td9_buy s) i

/-- TD9_SELL_AGE column. -/
def td9_sell_age (s : List Bar) (i : ℕ) : Option ℕ := event_age (td9_sell s) i

/-- TD13_BUY_AGE column. -/
def td13_buy_age (s : List Bar) (i : ℕ) : Option ℕ := event_age (td13_buy s) i

/-- TD13_SELL_AGE column. -/
def td13_sell_age (s : List Bar) (i : ℕ) : Option ℕ := event_age (td13_sell s) i

/-- TD9_BUY_STATUS column. -/
def td9_buy_status (s : List Bar) (i : ℕ) : String :=
  age_status TD9_WINDOW (td9_buy_age s i)

/-- TD9_SELL_STATUS column. -/
def td9_sell_status (s : List Bar) (i : ℕ) : String :=
  age_status TD9_WINDOW (td9_sell_age s i)

/-- TD13_BUY_STATUS column. -/
def td13_buy_status (s : List Bar) (i : ℕ) : String :=
  age_status TD13_WINDOW (td13_buy_age s i)

/-- TD13_SELL_STATUS column. -/
def td13_sell_status (s : List Bar) (i : ℕ) : String :=
  age_status TD13_WINDOW (td13_sell_age s i)

/-- Ordering of bars by the DATETIME column. -/
def byDatetime (a b : Bar) : Prop := a.datetime ≤ b.datetime

instance : DecidableRel byDatetime := fun a b => Int.decLe a.datetime b.datetime

instance : IsTotal Bar byDatetime := ⟨fun a b => Int.le_total a.datetime b.datetime⟩

instance : IsTrans Bar byDatetime := ⟨fun _ _ _ h h' => Int.le_trans h h'⟩

/-- The constructor `DeMarkEngine.__init__`: it copies the dataframe,
upper-cases the column names and, since a DATETIME column is present,
sorts the rows by DATETIME and resets the index.  It performs no
validation of any kind — there is no exception path in the engine, so
unsorted or duplicate timestamps are silently reordered rather than
rejected. -/
def engine_init (df : List Bar) : List Bar := List.insertionSort byDatetime df

/-- One output record of `run`: the per-row values of the columns the
engine computes and then mirrors under lowercase names for `main.py`. -/
structure BarState where
  bull_setup : ℕ
  bear_setup : ℕ
  perfect_buy : Bool
  perfect_sell : Bool
  td9_buy_status : String
  td9_sell_status : String
  td13_buy_status : String
  td13_sell_status : String
  td9_buy_age : Option ℕ
  td9_sell_age : Option ℕ
  td13_buy_age : Option ℕ
  td13_sell_age : Option ℕ
deriving DecidableEq

/-- The record of computed columns at row `i` of the (sorted) dataframe. -/
def bar_state (s : List Bar) (i : ℕ) : BarState where
  bull_setup := bull_setup s i
  bear_setup := bear_setup s i
  perfect_buy := perfect_buy s i
  perfect_sell := perfect_sell s i
  td9_buy_status := td9_buy_status s i
  td9_sell_status := td9_sell_status s i
  td13_buy_status := td13_buy_status s i
  td13_sell_status := td13_sell_status s i
  td9_buy_age := td9_buy_age s i
  td9_sell_age := td9_sell_age s i
  td13_buy_age := td13_buy_age s i
  td13_sell_age := td13_sell_age s i

/-- `DeMarkEngine.run`: sorts the input in the constructor, computes every
derived column over the sorted rows and returns the enriched dataframe —
one record per row of the input. -/
def engine_run (df : List Bar) : List BarState :=
  (List.range (engine_init df).length).map (bar_state (engine_init df))

/-- Columns of the input dataframe after `__init__` upper-cases them. -/
def init_columns : List String :=
  ["DATETIME", "OPEN", "HIGH", "LOW", "CLOSE", "VOLUME"]

/-- Column added by `compute_demarker`. -/
def demarker_columns : List String := ["DEMARKER"]

/-- Columns added by `compute_setups`. -/
def setup_columns : List String :=
  ["BULL_SETUP", "BEAR_SETUP", "PERFECT_BUY", "PERFECT_SELL",
   "TD9_BUY", "TD9_SELL"]

/-- Columns added by `compute_countdown`. -/
def countdown_columns : List String :=
  ["BULL_CD", "BEAR_CD", "TD13_BUY", "TD13_SELL"]

/-- Columns added by `compute_signal_aging`. -/
def aging_columns : List String :=
  ["TD9_BUY_BAR", "TD9_SELL_BAR", "TD13_BUY_BAR", "TD13_SELL_BAR",
   "TD9_BUY_AGE", "TD9_SELL_AGE", "TD13_BUY_AGE", "TD13_SELL_AGE",
   "TD9_BUY_STATUS", "TD9_SELL_STATUS", "TD13_BUY_STATUS", "TD13_SELL_STATUS"]

/-- The lowercase mirror columns that `run` adds for `main.py`. -/
def lowercase_columns : List String :=
  ["bull_setup", "bear_setup", "perfect_buy", "perfect_sell",
   "td9_buy_status", "td9_sell_status", "td13_buy_status", "td13_sell_status",
   "td9_buy_age", "td9_sell_age", "td13_buy_age", "td13_sell_age"]

/-- Every column of the dataframe returned by `DeMarkEngine.run`: the
input columns followed by the columns each compute step adds, in the
order the methods execute, then the lowercase mirrors. -/
def run_columns : List String :=
  init_columns ++ demarker_columns ++ setup_columns ++ countdown_columns ++
    aging_columns ++ lowercase_columns

/-- Five-bar series: closes 1, 1, 5, 5, 6 with lows 10 and highs 100.
At row 4 the close exceeds the close four rows back, starting a bear
setup, while the close stays at or below the low two rows back on rows
2, 3 and 4, so the bull countdown accumulates. -/
def seriesC1 : List Bar :=
  [⟨0, 0, 100, 10, 1, 0⟩, ⟨1, 0, 100, 10, 1, 0⟩, ⟨2, 0, 100, 10, 5, 0⟩,
   ⟨3, 0, 100, 10, 5, 0⟩, ⟨4, 0, 100, 10, 6, 0⟩]

/-- Sixteen flat bars: every close and low is 5 and every high is 100,
so `CLOSE[i] <= LOW[i-2]` holds at every row from 2 on while no setup
ever starts in either direction. -/
def seriesFlat : List Bar :=
  (List.range 16).map (fun (i : ℕ) => ⟨(i : ℤ), 0, 100, 5, 5, 0⟩)

/-- Closes of the fourteen-bar descending series. -/
def seriesDesc_closes : List ℚ := [10, 10, 10, 10, 9, 8, 7, 6, 5, 4, 3, 2, 1, 0]

/-- Fourteen bars whose closes are 10, 10, 10, 10, 9, 8, ..., 0, with
high and low equal to the close: the bull setup counts 1 .. 9 over rows
4 .. 12 and reaches 10 at row 13. -/
def seriesDesc : List Bar :=
  (List.range 14).map (fun (i : ℕ) =>
    let c : ℚ := seriesDesc_closes.getD i 0
    ⟨(i : ℤ), 0, c, c, c, 0⟩)

/-- Two bars with descending DATETIME keys 5, 3. -/
def seriesUnsorted : List Bar :=
  [⟨5, 0, 0, 0, 1, 0⟩, ⟨3, 0, 0, 0, 2, 0⟩]

/-- Closes of Scenario A of the specification. -/
def scenarioA_closes : List ℚ := [10, 10, 10, 10, 9, 8, 7, 6, 5, 4, 3, 2, 1]

/-- The thirteen-bar series of Scenario A with an arbitrary HIGH column
`h`; lows and volumes are irrelevant to the bull setup and bull
perfection columns. -/
def scenarioA (h : ℕ → ℚ) : List Bar :=
  (List.range 13).map (fun (i : ℕ) => ⟨(i : ℤ), 0, h i, 0, scenarioA_closes.getD i 0, 0⟩)

example : bear_setup seriesC1 4 = 1 := by decide
example : bull_cd seriesC1 4 = 3 := by decide
example : bull_cd seriesFlat 14 = 13 := by decide
example : bull_cd seriesFlat 15 = 14 := by decide
example : bull_setup seriesDesc 12 = 9 := by decide
example : bull_setup seriesDesc 13 = 10 := by decide
example : bull_cd seriesDesc 12 = 1 := by decide
example : td9_buy seriesFlat 2 = false := by decide
example (h : ℕ → ℚ) : closeAt (scenarioA h) 4 = 9 := rfl
example (h : ℕ → ℚ) : bull_setup (scenarioA h) 12 = 9 := by rfl
example : engine_init seriesUnsorted = [⟨3, 0, 0, 0, 2, 0⟩, ⟨5, 0, 0, 0, 1, 0⟩] := by decide

/-- Each countdown loop iteration grows each counter by at most one,
whatever the running state: a reset can only lower it and at most one
increment follows. -/
theorem countdown_step_le (s : List Bar) (i : ℕ) (st : ℕ × ℕ) :
    (countdown_step s i st).1 ≤ st.1 + 1 ∧ (countdown_step s i st).2 ≤ st.2 + 1 := by
  unfold countdown_step
  constructor <;> dsimp only <;> split <;> split <;> omega

/-- The countdown counters after row `i` are bounded by `i`. -/
theorem countdown_state_le (s : List Bar) : ∀ i : ℕ,
    (countdown_state s i).1 ≤ i ∧ (countdown_state s i).2 ≤ i := by
  intro i
  induction i with
  | zero => simp [countdown_state]
  | succ n ih =>
    match n, ih with
    | 0, _ => simp [countdown_state]
    | (m + 1), ih =>
      have h2 := countdown_step_le s (m + 2) (countdown_state s (m + 1))
      simp only [countdown_state]
      omega

/-- A row whose event flag is set is its own most recent event row. -/
theorem last_event_bar_self {f : ℕ → Bool} {i : ℕ} (h : f i = true) :
    last_event_bar f i = some i := by
  cases i <;> simp [last_event_bar, h]

/-- If the event flag is clear on every row up to `i`, no event row has
been recorded by row `i`. -/
theorem last_event_bar_none {f : ℕ → Bool} : ∀ {i : ℕ},
    (∀ j, j ≤ i → f j = false) → last_event_bar f i = none := by
  intro i
  induction i with
  | zero => intro h; simp [last_event_bar, h 0 (Nat.le_refl 0)]
  | succ n ih =>
    intro h
    simp only [last_event_bar, h (n + 1) (Nat.le_refl _), Bool.false_eq_true,
      if_false]
    exact ih fun j hj => h j (Nat.le_succ_of_le hj)

/-- C1 (counterexample): at row 4 of `seriesC1` the bear setup count is
1, an active opposing setup against the accumulating bull countdown, yet
the bull countdown is 3, not 0 — the engine has no opposing-setup
cancellation rule. -/
theorem counterexample_C1 :
    1 ≤ bear_setup seriesC1 4 ∧ bull_cd seriesC1 4 = 3 := by decide

/-- C1 (amended): the countdown reset in `compute_countdown` is keyed to
the *same* direction's setup count being ≥ 9 at row `i`, not to an
opposing setup being ≥ 1; when it fires, the counter is zeroed before
this row's increment condition is evaluated, so the bull countdown at
such a row is exactly 1 when `CLOSE[i] <= LOW[i-2]` and 0 otherwise. -/
theorem theorem_C1 (s : List Bar) (i : ℕ) (h2 : 2 ≤ i)
    (h9 : 9 ≤ bull_setup s i) :
    bull_cd s i = if closeAt s i ≤ lowAt s (i - 2) then 1 else 0 := by
  obtain ⟨k, rfl⟩ : ∃ k, i = k + 2 := ⟨i - 2, by omega⟩
  simp only [bull_cd, countdown_state, countdown_step, if_pos h9,
    Nat.add_sub_cancel]

/-- C1 witness: on `seriesDesc` the bull setup reaches 9 at row 12 and
the close there sits at or below the low of row 10, so the reset-then-
increment of the recycling rule leaves the bull countdown at exactly 1. -/
theorem witness_C1 :
    9 ≤ bull_setup seriesDesc 12 ∧ bull_cd seriesDesc 12 = 1 :=
  ⟨by decide, by rw [theorem_C1 seriesDesc 12 (by decide) (by decide)]; decide⟩

/-- C2 (counterexample): on sixteen flat bars the bull countdown reaches
13 at row 14 and keeps growing to 14 at row 15 — the engine has no cap
at 13. -/
theorem counterexample_C2 :
    bull_cd seriesFlat 14 = 13 ∧ bull_cd seriesFlat 15 = 14 := by decide

/-- C2 (amended): the countdown counters are non-negative, grow by at
most one per row and are bounded by the row index, but they are not
capped at 13: once 13 is reached the counter keeps incrementing while
the increment condition holds (only the TD13 flag, not the counter,
stays set). -/
theorem theorem_C2 (s : List Bar) (i : ℕ) :
    bull_cd s i ≤ i ∧ bear_cd s i ≤ i ∧
      bull_cd s (i + 1) ≤ bull_cd s i + 1 ∧
      bear_cd s (i + 1) ≤ bear_cd s i + 1 := by
  have hb := countdown_state_le s i
  refine ⟨hb.1, hb.2, ?_, ?_⟩ <;>
    · match i with
      | 0 => simp [bull_cd, bear_cd, countdown_state]
      | (m + 1) =>
        have h2 := countdown_step_le s (m + 2) (countdown_state s (m + 1))
        simp only [bull_cd, bear_cd, countdown_state]
        omega

/-- C4 (counterexample): on sixteen flat bars the bull countdown first
reaches 13 at row 14, yet TD13_BUY is still true at row 15 — a later row
of the same completed countdown — and the TD13 buy age is 0 there, not a
positive age. -/
theorem counterexample_C4 :
    bull_cd seriesFlat 14 = 13 ∧ td13_buy seriesFlat 14 = true ∧
      td13_buy seriesFlat 15 = true ∧ td13_buy_age seriesFlat 15 = some 0 := by
  decide

/-- C4 (amended): `TD13_BUY` is `BULL_CD >= 13`, so the flag is true at
*every* row whose countdown is at least 13, not only the first row
reaching 13; consequently the TD13 recency age is 0 at every such row. -/
theorem theorem_C4 (s : List Bar) (i : ℕ) (h : 13 ≤ bull_cd s i) :
    td13_buy s i = true ∧ td13_buy_age s i = some 0 := by
  have hb : td13_buy s i = true := by simpa [td13_buy] using h
  refine ⟨hb, ?_⟩
  simp [td13_buy_age, event_age, last_event_bar_self hb]

/-- C4 witness: row 14 of the flat series has countdown 13, so its TD13
flag is set and its age is 0. -/
theorem witness_C4 :
    td13_buy seriesFlat 14 = true ∧ td13_buy_age seriesFlat 14 = some 0 :=
  theorem_C4 seriesFlat 14 (by decide)

/-- C3 (counterexample): the dataframe returned by `run` has no
`valid_buy_exhaustion` or `valid_sell_exhaustion` column — the engine
computes no validated-exhaustion flag at all. -/
theorem counterexample_C3 :
    "valid_buy_exhaustion" ∉ run_columns ∧
      "valid_sell_exhaustion" ∉ run_columns := by decide

/-- C3 (amended): the output of `run` carries the oscillator, setup,
countdown and aging columns, but no validated-exhaustion flag of either
direction: no oscillator-threshold, volume-filter or price-proximity
validation is implemented. -/
theorem theorem_C3 :
    "DEMARKER" ∈ run_columns ∧ "TD13_BUY" ∈ run_columns ∧
      "TD9_BUY" ∈ run_columns ∧
      run_columns.all
        (fun c => c != "valid_buy_exhaustion" && c != "valid_sell_exhaustion")
        = true := by decide

/-- C5 (counterexample): on the flat series no TD9 buy event has
occurred by row 2 — the forward-filled event bar is still NaN — yet the
status column reads the string "Expired", not an undefined marker. -/
theorem counterexample_C5 :
    last_event_bar (td9_buy seriesFlat) 2 = none ∧
      td9_buy_status seriesFlat 2 = "Expired" := by decide

/-- C5 (amended): when no event of a type has occurred at any row up to
`i`, the age column is the undefined marker (NaN), but the status column
is not: both numpy comparisons on a NaN age are false, so the
classification falls through to the string "Expired". -/
theorem theorem_C5 (s : List Bar) (i : ℕ)
    (h : ∀ j, j ≤ i → td9_buy s j = false) :
    td9_buy_age s i = none ∧ td9_buy_status s i = "Expired" := by
  have hn : last_event_bar (td9_buy s) i = none := last_event_bar_none h
  constructor
  · simp [td9_buy_age, event_age, hn]
  · simp [td9_buy_status, td9_buy_age, event_age, hn, age_status]

/-- C5 witness: the flat series has no TD9 buy event on rows 0 .. 2, so
row 2's age is undefined while its status is "Expired". -/
theorem witness_C5 :
    td9_buy_age seriesFlat 2 = none ∧ td9_buy_status seriesFlat 2 = "Expired" :=
  theorem_C5 seriesFlat 2 (by decide)

/-- C6 (counterexample): fed two bars with strictly descending
timestamps, the constructor silently reorders them and `run` still
produces one output record per input bar — no error is raised on
non-ascending timestamps. -/
theorem counterexample_C6 :
    engine_init seriesUnsorted = [⟨3, 0, 0, 0, 2, 0⟩, ⟨5, 0, 0, 0, 1, 0⟩] ∧
      (engine_run seriesUnsorted).length = 2 := by decide

/-- C6 (amended): the engine never raises: the constructor performs no
validation and instead sorts the rows by DATETIME, so any input —
non-ascending or duplicate timestamps included — is silently reordered
into a DATETIME-sorted permutation of itself and then computed over. -/
theorem theorem_C6 (df : List Bar) :
    (engine_init df).Perm df ∧ List.Sorted byDatetime (engine_init df) :=
  ⟨List.perm_insertionSort byDatetime df,
   List.sorted_insertionSort byDatetime df⟩

/-- C7: the per-row setup counters are mutually exclusive: at every row
at least one of the two is 0, because the bull counter is only non-zero
when `CLOSE[i] < CLOSE[i-4]` and the bear counter only when
`CLOSE[i] > CLOSE[i-4]`. -/
theorem theorem_C7 (s : List Bar) (i : ℕ) :
    bull_setup s i = 0 ∨ bear_setup s i = 0 := by
  match i with
  | 0 | 1 | 2 | 3 => exact Or.inl rfl
  | (k + 4) =>
    by_cases h : closeAt s (k + 4) < closeAt s k
    · exact Or.inr (by simp [bear_setup, not_lt.mpr (le_of_lt h)])
    · exact Or.inl (by simp [bull_setup, h])

/-- C8: on the thirteen Scenario A bars with closes
10, 10, 10, 10, 9, 8, 7, 6, 5, 4, 3, 2, 1, whatever the HIGH column, the
bull setup reads 1 .. 9 over rows 4 .. 12, and the perfection flag at
row 12 holds exactly when `high[4] > high[6]` or `high[4] > high[5]`. -/
theorem theorem_C8 (h : ℕ → ℚ) :
    bull_setup (scenarioA h) 4 = 1 ∧ bull_setup (scenarioA h) 5 = 2 ∧
      bull_setup (scenarioA h) 6 = 3 ∧ bull_setup (scenarioA h) 7 = 4 ∧
      bull_setup (scenarioA h) 8 = 5 ∧ bull_setup (scenarioA h) 9 = 6 ∧
      bull_setup (scenarioA h) 10 = 7 ∧ bull_setup (scenarioA h) 11 = 8 ∧
      bull_setup (scenarioA h) 12 = 9 ∧
      (perfect_buy (scenarioA h) 12 = true ↔ (h 4 > h 6 ∨ h 4 > h 5)) := by
  refine ⟨rfl, rfl, rfl, rfl, rfl, rfl, rfl, rfl, rfl, ?_⟩
  show (decide (h 4 > h 6) || decide (h 4 > h 5)) = true ↔ _
  simp

/-- C9: `run` returns one enriched record per row of the input
dataframe, for every input including the empty one: sorting in the
constructor preserves the row count and every derived column is written
row-parallel. -/
theorem theorem_C9 (df : List Bar) : (engine_run df).length = df.length := by
  simp [engine_run, engine_init]

/-- C10: the setup counters are not capped at 9: on any row where the
bull flip condition holds the counter is the previous row's counter plus
one, without bound; the TD9 flag is the counter being exactly 9, so once
the previous counter is at least 9 the flag is false on the next row of
the same run. -/
theorem theorem_C10 (s : List Bar) (i : ℕ) (h4 : 4 ≤ i)
    (hf : closeAt s i < closeAt s (i - 4)) :
    bull_setup s i = bull_setup s (i - 1) + 1 ∧
      (td9_buy s i = true ↔ bull_setup s i = 9) ∧
      (9 ≤ bull_setup s (i - 1) → td9_buy s i = false) := by
  obtain ⟨k, rfl⟩ : ∃ k, i = k + 4 := ⟨i - 4, by omega⟩
  rw [Nat.add_sub_cancel] at hf
  have h1 : bull_setup s (k + 4) = bull_setup s (k + 3) + 1 := by
    simp [bull_setup, hf]
  refine ⟨h1, by simp [td9_buy], fun h9 => ?_⟩
  have h9' : 9 ≤ bull_setup s (k + 3) := h9
  simp only [td9_buy, h1, beq_eq_false_iff_ne, ne_eq]
  omega

/-- C10 witness: on the descending series the run continues past nine:
row 13 has counter 10 = 9 + 1 and its TD9 flag is false. -/
theorem witness_C10 :
    bull_setup seriesDesc 13 = bull_setup seriesDesc 12 + 1 ∧
      (td9_buy seriesDesc 13 = true ↔ bull_setup seriesDesc 13 = 9) ∧
      (9 ≤ bull_setup seriesDesc 12 → td9_buy seriesDesc 13 = false) :=
  theorem_C10 seriesDesc 13 (by decide) (by decide)
